import Mathlib

/-!
Shallow embedding of the ledger core of the `springboard_03_oop_banking`
repository (`src/banking_utils.py`, `src/app_utils.py`), together with
theorems settling the specification claims about it.

Modelling conventions:
* Python `int` is modelled as `Int`; the `DECIMAL` interest rate as `Rat`.
* Externally generated values (UUIDs from `uuid4()`, timestamps from
  `datetime.now()`) are passed in as explicit arguments.
* A Python constructor or method that can `raise ValueError` is modelled as
  a function into `Except String _`; the raised message is the error value.
  Raising before any assignment leaves the object unchanged, which the
  functional embedding renders by returning no new object at all.
* The SHA-256 password hash is an external library call and is modelled as
  an explicit function argument `hashFn`.
-/

namespace Banking

/-- `Individual` (banking_utils.py, class Individual): column fields as stored
after `__init__` ran all property setters. -/
structure Individual where
  indvdl_id : String
  user_name : String
  password : String
  first_name : String
  last_name : String
  age_num : Int
  address : String
deriving Repr, DecidableEq

/-- `Individual.__init__` (banking_utils.py lines 63-70).  Field assignments go
through property setters; the only setter that can raise is `age_num`
(lines 88-92: `new_age < 18` raises `ValueError`).  The password setter stores
`sha256(pwd)`, modelled by the external `hashFn`; the id is `uuid4()` unless
supplied, modelled by the explicit `iid` argument. -/
def mkIndividual (hashFn : String → String) (iid user_name pwd first_name last_name : String)
    (age_num : Int) (address : String) : Except String Individual :=
  if age_num < 18 then
    .error "Must be 18 or older to have an account"
  else
    .ok { indvdl_id := iid, user_name := user_name, password := hashFn pwd,
          first_name := first_name, last_name := last_name,
          age_num := age_num, address := address }

/-- `Account` (banking_utils.py, class Account): column fields as stored after
`__init__` ran all property setters. -/
structure Account where
  account_id : String
  indvdl_id : String
  account_type : String
  balance : Int
  liability_fg : Int
  interest_rate : Rat
deriving Repr, DecidableEq

/-- `Transaction` (banking_utils.py, class Transaction, lines 267-274): the
`__init__` body assigns the private fields directly, with no property setters
and no validation of any field. -/
structure Transaction where
  transaction_id : String
  account_id : String
  transaction_type : String
  amount : Int
  transaction_timestamp : Int
deriving Repr, DecidableEq

/-- `Transaction.__init__` (banking_utils.py lines 267-274).  There is no
conditional and no `raise` in the body: every field, including a negative
`amount`, is stored exactly as given.  `tid` models `uuid4()`-or-given, `ts`
models `datetime.now()`-or-given. -/
def mkTransaction (tid account_id transaction_type : String) (amount : Int)
    (ts : Int) : Transaction :=
  { transaction_id := tid, account_id := account_id,
    transaction_type := transaction_type, amount := amount,
    transaction_timestamp := ts }

/-- The `balance` property setter (banking_utils.py lines 180-184): raises
`ValueError('Negative balance')` when the new balance is negative, otherwise
commits it. -/
def Account.setBalance (acct : Account) (new_balance : Int) : Except String Account :=
  if new_balance < 0 then .error "Negative balance"
  else .ok { acct with balance := new_balance }

/-- `Account.__init__` (banking_utils.py lines 153-159).  Setters run in
source order: `account_type` (lines 169-174), `balance` (180-184),
`liability_fg` (190-194), `interest_rate` (200-204); the first failing setter
raises and nothing is constructed.  `aid` models `uuid4()`-or-given. -/
def mkAccount (aid indvdl_id account_type : String) (balance : Int)
    (liability_fg : Int) (interest_rate : Rat) : Except String Account :=
  if account_type ∉ ["Checking", "Savings", "Credit Card"] then
    .error "Accounts can only be Checking, Savings, or Credit Card"
  else if balance < 0 then
    .error "Negative balance"
  else if liability_fg ∉ ([0, 1] : List Int) then
    .error "Liability must be 0 or 1"
  else if interest_rate < 0 then
    .error "Interest Rate should be >= 0"
  else
    .ok { account_id := aid, indvdl_id := indvdl_id, account_type := account_type,
          balance := balance, liability_fg := liability_fg,
          interest_rate := interest_rate }

/-- `Account.debit` (banking_utils.py lines 206-210): rejects `amt < 0`, then
`self.balance += (1-2*self.liability_fg)*amt` through the balance setter, then
returns a new `Transaction` of type `'DEBIT'`. -/
def Account.debit (acct : Account) (amt : Int) (tid : String) (ts : Int) :
    Except String (Account × Transaction) :=
  if amt < 0 then .error "Cash flows must be positive"
  else
    match acct.setBalance (acct.balance + (1 - 2 * acct.liability_fg) * amt) with
    | .error e => .error e
    | .ok a => .ok (a, mkTransaction tid acct.account_id "DEBIT" amt ts)

/-- `Account.credit` (banking_utils.py lines 212-216): rejects `amt < 0`, then
`self.balance -= (1-2*self.liability_fg)*amt` through the balance setter, then
returns a new `Transaction` of type `'CREDIT'`. -/
def Account.credit (acct : Account) (amt : Int) (tid : String) (ts : Int) :
    Except String (Account × Transaction) :=
  if amt < 0 then .error "Cash flows must be positive"
  else
    match acct.setBalance (acct.balance - (1 - 2 * acct.liability_fg) * amt) with
    | .error e => .error e
    | .ok a => .ok (a, mkTransaction tid acct.account_id "CREDIT" amt ts)

/-- `Account.make_checking_account` (banking_utils.py lines 218-220). -/
def Account.make_checking_account (aid indvdl_id : String) (starting_balance : Int) :
    Except String Account :=
  mkAccount aid indvdl_id "Checking" starting_balance 0 0

/-- `Account.make_savings_account` (banking_utils.py lines 222-224). -/
def Account.make_savings_account (aid indvdl_id : String) (starting_balance : Int) :
    Except String Account :=
  mkAccount aid indvdl_id "Savings" starting_balance 0 (5/100 : Rat)

/-- `Account.make_credit_card_account` (banking_utils.py lines 226-228). -/
def Account.make_credit_card_account (aid indvdl_id : String) (starting_balance : Int) :
    Except String Account :=
  mkAccount aid indvdl_id "Credit Card" starting_balance 1 (25/1000 : Rat)

/-- `Individual.make_basic_accounts` (banking_utils.py lines 94-98): builds a
checking, a savings and a credit-card account for the individual, each with
starting balance 0.  `aid1 aid2 aid3` model the three `uuid4()` calls. -/
def Individual.make_basic_accounts (ind : Individual) (aid1 aid2 aid3 : String) :
    Except String (Account × Account × Account) := do
  let checking ← Account.make_checking_account aid1 ind.indvdl_id 0
  let savings ← Account.make_savings_account aid2 ind.indvdl_id 0
  let credit_card ← Account.make_credit_card_account aid3 ind.indvdl_id 0
  return (checking, savings, credit_card)

/-- A single ledger operation request, as issued by the customer CLI:
`deposit` invokes `debit`, `withdraw` invokes `credit`. -/
inductive Op where
  | debit (amt : Int)
  | credit (amt : Int)
deriving Repr, DecidableEq

/-- The amount requested by an operation. -/
def Op.amount : Op → Int
  | .debit a => a
  | .credit a => a

/-- The `transaction_type` string the operation stamps on its transaction. -/
def Op.kindStr : Op → String
  | .debit _ => "DEBIT"
  | .credit _ => "CREDIT"

/-- The signed delta an operation applies to the balance of an account with
liability flag `fg`: `(1-2*fg)*amt` for a debit and its negation for a
credit (banking_utils.py lines 209 and 215). -/
def Op.signedDelta (fg : Int) : Op → Int
  | .debit a => (1 - 2 * fg) * a
  | .credit a => -((1 - 2 * fg) * a)

/-- Sum of the signed deltas of a sequence of operations. -/
def signedSum (fg : Int) (ops : List Op) : Int :=
  (ops.map (Op.signedDelta fg)).sum

/-- Dispatch an operation to `Account.debit` / `Account.credit`.  Transaction
id and timestamp are external (`uuid4()`, `datetime.now()`) and irrelevant to
the sequencing claims, so placeholders are used. -/
def applyOp (acct : Account) (op : Op) : Except String (Account × Transaction) :=
  match op with
  | .debit a => acct.debit a "" 0
  | .credit a => acct.credit a "" 0

/-- One CLI step: a failing operation raises inside `do_deposit`/`do_withdraw`
(app_utils.py lines 209-243), the exception is caught and the account is left
as it was; a succeeding operation commits the new balance. -/
def stepKeep (acct : Account) (op : Op) : Account :=
  match applyOp acct op with
  | .ok (a, _) => a
  | .error _ => acct

/-- Run a sequence of operations, keeping the prior state across failures. -/
def runKeep (acct : Account) (ops : List Op) : Account :=
  ops.foldl stepKeep acct

/-- Run a sequence of operations, failing the whole run on the first error and
collecting the emitted transactions in order. -/
def runAll (acct : Account) (ops : List Op) : Except String (Account × List Transaction) :=
  match ops with
  | [] => .ok (acct, [])
  | op :: rest => do
      let (a, t) ← applyOp acct op
      let (a2, ts) ← runAll a rest
      return (a2, t :: ts)

/-- The key normalization used by `_get_context` (app_utils.py lines 87-88):
`account.account_type.lower().replace(' ', '')`.  Lower-casing is per
character and replacing the one-character pattern `' '` by `''` deletes every
space, so both steps are modelled character-wise. -/
def normalizeKind (s : String) : String :=
  String.mk ((s.data.map Char.toLower).filter (fun c => c ≠ ' '))

/-- The session context `_get_context` returns: the logged-in individual plus
the account lookup built from the dict comprehension. -/
structure SessionContext where
  user : Individual
  accountFor : String → Option Account

/-- `CredentialHandler._get_context` (app_utils.py lines 84-90): builds a dict
mapping each account's normalized `account_type` to the account, plus the
`'user'` entry.  A dict comprehension keeps the last insertion for a repeated
key, so lookup is modelled as the first match in the reversed list.  The body
has no conditional and no `raise`: it is a total function of the individual's
account list. -/
def get_context (indvdl_obj : Individual) (accounts : List Account) : SessionContext :=
  { user := indvdl_obj,
    accountFor := fun k =>
      accounts.reverse.find? (fun a => normalizeKind a.account_type == k) }

/-! ### Unfolding lemmas -/

/-- Closed form of `Account.debit`: validation of the amount, then the
balance-setter guard, then the committed state and emitted transaction. -/
theorem Account.debit_eq (acct : Account) (amt : Int) (tid : String) (ts : Int) :
    acct.debit amt tid ts =
      if amt < 0 then .error "Cash flows must be positive"
      else if acct.balance + (1 - 2 * acct.liability_fg) * amt < 0 then
        .error "Negative balance"
      else
        .ok ({ acct with balance := acct.balance + (1 - 2 * acct.liability_fg) * amt },
             mkTransaction tid acct.account_id "DEBIT" amt ts) := by
  unfold Account.debit Account.setBalance
  split_ifs <;> rfl

/-- Closed form of `Account.credit`. -/
theorem Account.credit_eq (acct : Account) (amt : Int) (tid : String) (ts : Int) :
    acct.credit amt tid ts =
      if amt < 0 then .error "Cash flows must be positive"
      else if acct.balance - (1 - 2 * acct.liability_fg) * amt < 0 then
        .error "Negative balance"
      else
        .ok ({ acct with balance := acct.balance - (1 - 2 * acct.liability_fg) * amt },
             mkTransaction tid acct.account_id "CREDIT" amt ts) := by
  unfold Account.credit Account.setBalance
  split_ifs <;> rfl

/-- Closed form of `applyOp` in terms of the operation's signed delta. -/
theorem applyOp_eq (acct : Account) (op : Op) :
    applyOp acct op =
      if op.amount < 0 then .error "Cash flows must be positive"
      else if acct.balance + op.signedDelta acct.liability_fg < 0 then
        .error "Negative balance"
      else
        .ok ({ acct with balance := acct.balance + op.signedDelta acct.liability_fg },
             mkTransaction "" acct.account_id op.kindStr op.amount 0) := by
  cases op <;>
    simp [applyOp, Account.debit_eq, Account.credit_eq, Op.amount, Op.signedDelta,
      Op.kindStr, sub_eq_add_neg]

/-- `debit` succeeds iff the amount is admissible and the new balance passes
the setter guard, and then commits exactly the signed delta. -/
theorem Account.debit_ok (acct : Account) (amt : Int) (tid : String) (ts : Int)
    (h1 : 0 ≤ amt) (h2 : 0 ≤ acct.balance + (1 - 2 * acct.liability_fg) * amt) :
    acct.debit amt tid ts =
      .ok ({ acct with balance := acct.balance + (1 - 2 * acct.liability_fg) * amt },
           mkTransaction tid acct.account_id "DEBIT" amt ts) := by
  rw [Account.debit_eq]
  split_ifs with g1 g2
  · exact absurd g1 (not_lt.2 h1)
  · exact absurd g2 (not_lt.2 h2)
  · rfl

/-- `credit` succeeds iff the amount is admissible and the new balance passes
the setter guard, and then commits exactly the negated signed delta. -/
theorem Account.credit_ok (acct : Account) (amt : Int) (tid : String) (ts : Int)
    (h1 : 0 ≤ amt) (h2 : 0 ≤ acct.balance - (1 - 2 * acct.liability_fg) * amt) :
    acct.credit amt tid ts =
      .ok ({ acct with balance := acct.balance - (1 - 2 * acct.liability_fg) * amt },
           mkTransaction tid acct.account_id "CREDIT" amt ts) := by
  rw [Account.credit_eq]
  split_ifs with g1 g2
  · exact absurd g1 (not_lt.2 h1)
  · exact absurd g2 (not_lt.2 h2)
  · rfl

/-- Inversion: what a successful `debit` tells us. -/
theorem Account.debit_ok_inv {acct : Account} {amt : Int} {tid : String} {ts : Int}
    {a : Account} {t : Transaction}
    (h : acct.debit amt tid ts = .ok (a, t)) :
    0 ≤ amt ∧ 0 ≤ acct.balance + (1 - 2 * acct.liability_fg) * amt ∧
      a = { acct with balance := acct.balance + (1 - 2 * acct.liability_fg) * amt } ∧
      t = mkTransaction tid acct.account_id "DEBIT" amt ts := by
  rw [Account.debit_eq] at h
  split_ifs at h with g1 g2
  have hp := Prod.ext_iff.1 (Except.ok.inj h)
  exact ⟨not_lt.1 g1, not_lt.1 g2, hp.1.symm, hp.2.symm⟩

/-- Inversion: what a successful `credit` tells us. -/
theorem Account.credit_ok_inv {acct : Account} {amt : Int} {tid : String} {ts : Int}
    {a : Account} {t : Transaction}
    (h : acct.credit amt tid ts = .ok (a, t)) :
    0 ≤ amt ∧ 0 ≤ acct.balance - (1 - 2 * acct.liability_fg) * amt ∧
      a = { acct with balance := acct.balance - (1 - 2 * acct.liability_fg) * amt } ∧
      t = mkTransaction tid acct.account_id "CREDIT" amt ts := by
  rw [Account.credit_eq] at h
  split_ifs at h with g1 g2
  have hp := Prod.ext_iff.1 (Except.ok.inj h)
  exact ⟨not_lt.1 g1, not_lt.1 g2, hp.1.symm, hp.2.symm⟩

/-! ### Claim theorems -/

/-- C1: For an account with liability flag 0 (asset) and any amount `a ≥ 0`,
`debit(a)` increases the balance by `a` and `credit(a)` decreases it by `a`;
with liability flag 1 (liability), `debit(a)` decreases and `credit(a)`
increases the balance by `a`.  In general the committed signed delta is
`a * (1 - 2*liability_fg)` for debit and its negation for credit. -/
theorem debit_credit_polarity (acct : Account) (amt : Int) (tid : String) (ts : Int)
    (hamt : 0 ≤ amt) :
    (∀ a t, acct.debit amt tid ts = .ok (a, t) →
        a.balance = acct.balance + (1 - 2 * acct.liability_fg) * amt) ∧
    (∀ a t, acct.credit amt tid ts = .ok (a, t) →
        a.balance = acct.balance - (1 - 2 * acct.liability_fg) * amt) ∧
    (acct.liability_fg = 0 → 0 ≤ acct.balance →
        ∃ t, acct.debit amt tid ts = .ok ({ acct with balance := acct.balance + amt }, t)) ∧
    (acct.liability_fg = 0 → 0 ≤ acct.balance - amt →
        ∃ t, acct.credit amt tid ts = .ok ({ acct with balance := acct.balance - amt }, t)) ∧
    (acct.liability_fg = 1 → 0 ≤ acct.balance - amt →
        ∃ t, acct.debit amt tid ts = .ok ({ acct with balance := acct.balance - amt }, t)) ∧
    (acct.liability_fg = 1 → 0 ≤ acct.balance →
        ∃ t, acct.credit amt tid ts = .ok ({ acct with balance := acct.balance + amt }, t)) := by
  obtain ⟨aid, iid, atype, b, fg, ir⟩ := acct
  refine ⟨?_, ?_, ?_, ?_, ?_, ?_⟩
  · intro a t h
    rw [(Account.debit_ok_inv h).2.2.1]
  · intro a t h
    rw [(Account.credit_ok_inv h).2.2.1]
  · intro h0 hb
    subst h0
    dsimp only at hb
    refine ⟨mkTransaction tid aid "DEBIT" amt ts, ?_⟩
    rw [Account.debit_ok _ amt tid ts hamt (by simp; omega)]
    norm_num [sub_eq_add_neg]
  · intro h0 hb
    subst h0
    dsimp only at hb
    refine ⟨mkTransaction tid aid "CREDIT" amt ts, ?_⟩
    rw [Account.credit_ok _ amt tid ts hamt (by simp; omega)]
    norm_num [sub_eq_add_neg]
  · intro h0 hb
    subst h0
    dsimp only at hb
    refine ⟨mkTransaction tid aid "DEBIT" amt ts, ?_⟩
    rw [Account.debit_ok _ amt tid ts hamt (by simp; omega)]
    norm_num [sub_eq_add_neg]
  · intro h0 hb
    subst h0
    dsimp only at hb
    refine ⟨mkTransaction tid aid "CREDIT" amt ts, ?_⟩
    rw [Account.credit_ok _ amt tid ts hamt (by simp; omega)]
    norm_num [sub_eq_add_neg]

/-- Witness for C1: a checking account (flag 0) with balance 10 debited by 5
commits balance 15. -/
theorem debit_credit_polarity_witness :
    ∃ t, (Account.mk "a" "i" "Checking" 10 0 0).debit 5 "t" 0 =
      .ok ({ Account.mk "a" "i" "Checking" 10 0 0 with balance := 10 + 5 }, t) :=
  (debit_credit_polarity (Account.mk "a" "i" "Checking" 10 0 0) 5 "t" 0
    (by decide)).2.2.1 rfl (by decide)

/-- C4: For every account and every negative amount, both `debit` and
`credit` fail with the validation error, leave the balance unchanged, and
return no transaction. -/
theorem negative_amount_rejected (acct : Account) (amt : Int) (tid : String) (ts : Int)
    (h : amt < 0) :
    acct.debit amt tid ts = .error "Cash flows must be positive" ∧
    acct.credit amt tid ts = .error "Cash flows must be positive" ∧
    stepKeep acct (Op.debit amt) = acct ∧
    stepKeep acct (Op.credit amt) = acct := by
  refine ⟨?_, ?_, ?_, ?_⟩
  · rw [Account.debit_eq, if_pos h]
  · rw [Account.credit_eq, if_pos h]
  · simp [stepKeep, applyOp, Account.debit_eq, h]
  · simp [stepKeep, applyOp, Account.credit_eq, h]

/-- Witness for C4: debiting -1 from a savings account fails with the
validation error. -/
theorem negative_amount_rejected_witness :
    ((-1 : Int) < 0) ∧
      (Account.mk "a" "i" "Savings" 7 0 0).debit (-1) "t" 0 =
        .error "Cash flows must be positive" :=
  ⟨by decide, (negative_amount_rejected (Account.mk "a" "i" "Savings" 7 0 0) (-1) "t" 0
    (by decide)).1⟩

/-- C10: `debit` and `credit` modify only the balance: on success every other
field of the account is unchanged, and on failure the account is unchanged
entirely. -/
theorem debit_credit_frame (acct : Account) (amt : Int) (tid : String) (ts : Int) :
    (∀ a t, acct.debit amt tid ts = .ok (a, t) →
        a.account_id = acct.account_id ∧ a.indvdl_id = acct.indvdl_id ∧
        a.account_type = acct.account_type ∧ a.liability_fg = acct.liability_fg ∧
        a.interest_rate = acct.interest_rate) ∧
    (∀ a t, acct.credit amt tid ts = .ok (a, t) →
        a.account_id = acct.account_id ∧ a.indvdl_id = acct.indvdl_id ∧
        a.account_type = acct.account_type ∧ a.liability_fg = acct.liability_fg ∧
        a.interest_rate = acct.interest_rate) ∧
    (∀ e, applyOp acct (Op.debit amt) = .error e → stepKeep acct (Op.debit amt) = acct) ∧
    (∀ e, applyOp acct (Op.credit amt) = .error e → stepKeep acct (Op.credit amt) = acct) := by
  refine ⟨?_, ?_, ?_, ?_⟩
  · intro a t h
    rw [(Account.debit_ok_inv h).2.2.1]
    exact ⟨rfl, rfl, rfl, rfl, rfl⟩
  · intro a t h
    rw [(Account.credit_ok_inv h).2.2.1]
    exact ⟨rfl, rfl, rfl, rfl, rfl⟩
  · intro e h
    simp [stepKeep, h]
  · intro e h
    simp [stepKeep, h]

/-- Witness for C10: the account committed by a concrete successful debit
keeps its account type. -/
theorem debit_credit_frame_witness :
    (Account.mk "a" "i" "Checking" 15 0 0).account_type = "Checking" :=
  ((debit_credit_frame (Account.mk "a" "i" "Checking" 10 0 0) 5 "t" 0).1
    (Account.mk "a" "i" "Checking" 15 0 0)
    (mkTransaction "t" "a" "DEBIT" 5 0) rfl).2.2.1

/-- C9: `debit` and `credit` are mutually inverse when both succeed: after a
successful `debit(a)` the immediate `credit(a)` succeeds and restores the
original balance, and symmetrically. -/
theorem debit_credit_inverse (acct : Account) (amt : Int) (tid tid2 : String) (ts ts2 : Int)
    (hb : 0 ≤ acct.balance) :
    (∀ a t, acct.debit amt tid ts = .ok (a, t) →
        ∃ a2 t2, a.credit amt tid2 ts2 = .ok (a2, t2) ∧ a2.balance = acct.balance) ∧
    (∀ a t, acct.credit amt tid ts = .ok (a, t) →
        ∃ a2 t2, a.debit amt tid2 ts2 = .ok (a2, t2) ∧ a2.balance = acct.balance) := by
  constructor
  · intro a t h
    obtain ⟨h1, h2, ha, ht⟩ := Account.debit_ok_inv h
    subst ha
    refine ⟨_, _, Account.credit_ok _ amt tid2 ts2 h1 (by dsimp; linarith), by dsimp; ring⟩
  · intro a t h
    obtain ⟨h1, h2, ha, ht⟩ := Account.credit_ok_inv h
    subst ha
    refine ⟨_, _, Account.debit_ok _ amt tid2 ts2 h1 (by dsimp; linarith), by dsimp; ring⟩

/-- Witness for C9: after debiting 5 from a checking account with balance 10,
crediting 5 restores balance 10. -/
theorem debit_credit_inverse_witness :
    ∃ a2 t2, (Account.mk "a" "i" "Checking" 15 0 0).credit 5 "c" 1 = .ok (a2, t2) ∧
      a2.balance = (Account.mk "a" "i" "Checking" 10 0 0).balance :=
  (debit_credit_inverse (Account.mk "a" "i" "Checking" 10 0 0) 5 "t" "c" 0 1
      (by decide)).1
    (Account.mk "a" "i" "Checking" 15 0 0) (mkTransaction "t" "a" "DEBIT" 5 0) rfl

/-- `applyOp` succeeds when the amount is admissible and the new balance
passes the setter guard. -/
theorem applyOp_ok (acct : Account) (op : Op)
    (h1 : 0 ≤ op.amount) (h2 : 0 ≤ acct.balance + op.signedDelta acct.liability_fg) :
    applyOp acct op =
      .ok ({ acct with balance := acct.balance + op.signedDelta acct.liability_fg },
           mkTransaction "" acct.account_id op.kindStr op.amount 0) := by
  rw [applyOp_eq]
  split_ifs with g1 g2
  · exact absurd g1 (not_lt.2 h1)
  · exact absurd g2 (not_lt.2 h2)
  · rfl

/-- Inversion: what a successful `applyOp` tells us. -/
theorem applyOp_ok_inv {acct : Account} {op : Op} {a : Account} {t : Transaction}
    (h : applyOp acct op = .ok (a, t)) :
    0 ≤ op.amount ∧ 0 ≤ acct.balance + op.signedDelta acct.liability_fg ∧
      a = { acct with balance := acct.balance + op.signedDelta acct.liability_fg } ∧
      t = mkTransaction "" acct.account_id op.kindStr op.amount 0 := by
  rw [applyOp_eq] at h
  split_ifs at h with g1 g2
  have hp := Prod.ext_iff.1 (Except.ok.inj h)
  exact ⟨not_lt.1 g1, not_lt.1 g2, hp.1.symm, hp.2.symm⟩

/-- One step keeps the balance non-negative. -/
theorem stepKeep_balance_nonneg (acct : Account) (op : Op) (h : 0 ≤ acct.balance) :
    0 ≤ (stepKeep acct op).balance := by
  unfold stepKeep
  cases hap : applyOp acct op with
  | error e => exact h
  | ok p =>
      obtain ⟨a, t⟩ := p
      obtain ⟨h1, h2, ha, ht⟩ := applyOp_ok_inv hap
      subst ha
      exact h2

/-- Any sequence of operations keeps the balance non-negative. -/
theorem runKeep_balance_nonneg (ops : List Op) :
    ∀ acct : Account, 0 ≤ acct.balance → 0 ≤ (runKeep acct ops).balance := by
  induction ops with
  | nil => intro acct h; exact h
  | cons op rest ih =>
      intro acct h
      exact ih (stepKeep acct op) (stepKeep_balance_nonneg acct op h)

/-- C2: the non-negative-balance invariant.  A successful operation commits a
non-negative balance; an operation whose computed new balance would be
negative fails with a validation error and leaves the account unchanged (so no
transaction is produced); and the balance stays non-negative across any
sequence of operations, succeeding or failing. -/
theorem balance_nonneg_invariant (acct : Account) (h : 0 ≤ acct.balance) :
    (∀ op a t, applyOp acct op = .ok (a, t) → 0 ≤ a.balance) ∧
    (∀ op, acct.balance + op.signedDelta acct.liability_fg < 0 →
        (∃ e, applyOp acct op = .error e) ∧ stepKeep acct op = acct) ∧
    (∀ ops, 0 ≤ (runKeep acct ops).balance) := by
  refine ⟨?_, ?_, ?_⟩
  · intro op a t hap
    obtain ⟨h1, h2, ha, ht⟩ := applyOp_ok_inv hap
    subst ha
    exact h2
  · intro op hneg
    constructor
    · by_cases g : op.amount < 0
      · exact ⟨_, by rw [applyOp_eq, if_pos g]⟩
      · exact ⟨_, by rw [applyOp_eq, if_neg g, if_pos hneg]⟩
    · unfold stepKeep
      cases hap : applyOp acct op with
      | error e => rfl
      | ok p =>
          obtain ⟨a, t⟩ := p
          obtain ⟨h1, h2, ha, ht⟩ := applyOp_ok_inv hap
          exact absurd hneg (not_lt.2 h2)
  · intro ops
    exact runKeep_balance_nonneg ops acct h

/-- Witness for C2: a savings account with balance 3 stays non-negative under
a deposit of 2 and withdrawals of 10 and 4 (the 10 fails, the 4 succeeds). -/
theorem balance_nonneg_invariant_witness :
    0 ≤ (runKeep (Account.mk "a" "i" "Savings" 3 0 0)
      [Op.debit 2, Op.credit 10, Op.credit 4]).balance :=
  (balance_nonneg_invariant (Account.mk "a" "i" "Savings" 3 0 0) (by decide)).2.2
    [Op.debit 2, Op.credit 10, Op.credit 4]

/-- The signed sum of the empty sequence. -/
theorem signedSum_nil (fg : Int) : signedSum fg [] = 0 := rfl

/-- The signed sum of a cons. -/
theorem signedSum_cons (fg : Int) (op : Op) (ops : List Op) :
    signedSum fg (op :: ops) = op.signedDelta fg + signedSum fg ops := by
  simp [signedSum]

/-- C3: for any account and any sequence of operations with non-negative
amounts all of whose intermediate balances stay non-negative, every operation
succeeds, the final balance is the initial balance plus the signed sum of the
operations, and each operation emits exactly one transaction carrying the
requested amount, the matching kind, and the account's id. -/
theorem sequence_ledger (ops : List Op) :
    ∀ acct : Account, (∀ op ∈ ops, 0 ≤ op.amount) →
    (∀ n, 0 ≤ acct.balance + signedSum acct.liability_fg (ops.take n)) →
    ∃ a ts, runAll acct ops = .ok (a, ts) ∧
      a.balance = acct.balance + signedSum acct.liability_fg ops ∧
      ts.map Transaction.amount = ops.map Op.amount ∧
      ts.map Transaction.transaction_type = ops.map Op.kindStr ∧
      ∀ t ∈ ts, t.account_id = acct.account_id := by
  induction ops with
  | nil =>
      intro acct _ _
      exact ⟨acct, [], rfl, by simp [signedSum], rfl, rfl, by simp⟩
  | cons op rest ih =>
      intro acct hamts hinter
      have hop : 0 ≤ op.amount := hamts op (List.mem_cons_self _ _)
      have h1 : 0 ≤ acct.balance + op.signedDelta acct.liability_fg := by
        have h := hinter 1
        simpa [signedSum_cons, signedSum_nil] using h
      have happ := applyOp_ok acct op hop h1
      obtain ⟨a, ts, hrun, hbal, hamt, hkind, hacc⟩ :=
        ih { acct with balance := acct.balance + op.signedDelta acct.liability_fg }
          (fun op' h' => hamts op' (List.mem_cons_of_mem _ h'))
          (by
            intro n
            have h := hinter (n + 1)
            simpa [signedSum_cons, add_assoc] using h)
      refine ⟨a, mkTransaction "" acct.account_id op.kindStr op.amount 0 :: ts, ?_, ?_, ?_, ?_, ?_⟩
      · simp [runAll, happ, hrun, Bind.bind, Except.bind, Functor.map, Except.map, Pure.pure,
          Except.pure]
      · rw [hbal]
        dsimp
        rw [signedSum_cons]
        ring
      · simp [mkTransaction, hamt]
      · simp [mkTransaction, hkind]
      · intro t ht
        rcases List.mem_cons.1 ht with h | h
        · subst h; rfl
        · exact hacc t h

/-- Witness for C3: the reference scenario from the repository's test suite, a
checking account with balance 100 debited 100 then credited 50. -/
theorem sequence_ledger_witness :
    ∃ a ts,
      runAll (Account.mk "a" "i" "Checking" 100 0 0) [Op.debit 100, Op.credit 50] = .ok (a, ts) ∧
      a.balance = (Account.mk "a" "i" "Checking" 100 0 0).balance +
        signedSum (Account.mk "a" "i" "Checking" 100 0 0).liability_fg
          [Op.debit 100, Op.credit 50] ∧
      ts.map Transaction.amount = [Op.debit 100, Op.credit 50].map Op.amount ∧
      ts.map Transaction.transaction_type = [Op.debit 100, Op.credit 50].map Op.kindStr ∧
      ∀ t ∈ ts, t.account_id = (Account.mk "a" "i" "Checking" 100 0 0).account_id :=
  sequence_ledger [Op.debit 100, Op.credit 50] (Account.mk "a" "i" "Checking" 100 0 0)
    (by decide)
    (by
      intro n
      match n with
      | 0 => decide
      | 1 => decide
      | (k + 2) =>
          rw [List.take_of_length_le (by simp)]
          decide)

/-- C7: the factory operations produce accounts with the fixed configurations
Checking (flag 0, rate 0), Savings (flag 0, rate 0.05), Credit Card (flag 1,
rate 0.025), each owned by the given owner with the given starting balance;
and `make_basic_accounts` yields exactly one account of each kind, owned by
the individual, all with balance 0. -/
theorem account_factories (aid oid : String) (b : Int) (hb : 0 ≤ b) :
    Account.make_checking_account aid oid b =
      .ok { account_id := aid, indvdl_id := oid, account_type := "Checking",
            balance := b, liability_fg := 0, interest_rate := 0 } ∧
    Account.make_savings_account aid oid b =
      .ok { account_id := aid, indvdl_id := oid, account_type := "Savings",
            balance := b, liability_fg := 0, interest_rate := 5/100 } ∧
    Account.make_credit_card_account aid oid b =
      .ok { account_id := aid, indvdl_id := oid, account_type := "Credit Card",
            balance := b, liability_fg := 1, interest_rate := 25/1000 } ∧
    (∀ (ind : Individual) (a1 a2 a3 : String),
      ind.make_basic_accounts a1 a2 a3 =
        .ok ({ account_id := a1, indvdl_id := ind.indvdl_id, account_type := "Checking",
               balance := 0, liability_fg := 0, interest_rate := 0 },
             { account_id := a2, indvdl_id := ind.indvdl_id, account_type := "Savings",
               balance := 0, liability_fg := 0, interest_rate := 5/100 },
             { account_id := a3, indvdl_id := ind.indvdl_id, account_type := "Credit Card",
               balance := 0, liability_fg := 1, interest_rate := 25/1000 })) := by
  have hnb : ¬ b < 0 := not_lt.2 hb
  refine ⟨?_, ?_, ?_, ?_⟩
  · simp [Account.make_checking_account, mkAccount, hnb]
  · simp [Account.make_savings_account, mkAccount, hnb]
    norm_num
  · simp [Account.make_credit_card_account, mkAccount, hnb]
    norm_num
  · intro ind a1 a2 a3
    simp [Individual.make_basic_accounts, Account.make_checking_account,
      Account.make_savings_account, Account.make_credit_card_account, mkAccount,
      Bind.bind, Except.bind, Pure.pure, Except.pure]
    norm_num

/-- Witness for C7: a concrete checking account factory call. -/
theorem account_factories_witness :
    Account.make_checking_account "c1" "owner" 100 =
      .ok { account_id := "c1", indvdl_id := "owner", account_type := "Checking",
            balance := 100, liability_fg := 0, interest_rate := 0 } :=
  (account_factories "c1" "owner" 100 (by decide)).1

/-- C8: constructing an `Individual` with age below 18 fails with the
validation error and constructs nothing; with age at least 18 the validation
passes and the given age is stored. -/
theorem individual_age_validation (hashFn : String → String)
    (iid un pwd fn ln : String) (age : Int) (addr : String) :
    (age < 18 → mkIndividual hashFn iid un pwd fn ln age addr =
        .error "Must be 18 or older to have an account") ∧
    (18 ≤ age → ∃ ind, mkIndividual hashFn iid un pwd fn ln age addr = .ok ind ∧
        ind.age_num = age) := by
  constructor
  · intro h
    rw [mkIndividual, if_pos h]
  · intro h
    refine ⟨{ indvdl_id := iid, user_name := un, password := hashFn pwd,
              first_name := fn, last_name := ln, age_num := age, address := addr }, ?_, rfl⟩
    rw [mkIndividual, if_neg (not_lt.2 h)]

/-- Witness for C8: signup at age 17 fails, signup at age 50 stores age 50. -/
theorem individual_age_validation_witness :
    (mkIndividual id "i1" "u" "pw" "fn" "ln" 17 "addr" =
        .error "Must be 18 or older to have an account") ∧
      ∃ ind, mkIndividual id "i1" "u" "pw" "fn" "ln" 50 "addr" = .ok ind ∧
        ind.age_num = 50 :=
  ⟨(individual_age_validation id "i1" "u" "pw" "fn" "ln" 17 "addr").1 (by decide),
   (individual_age_validation id "i1" "u" "pw" "fn" "ln" 50 "addr").2 (by decide)⟩

/-- C5 counterexample: constructing a `Transaction` with the negative amount
-5 does not fail: `Transaction.__init__` has no validation of any field, so a
transaction object holding amount -5 is constructed and returned. -/
theorem transaction_negative_amount_constructs :
    (mkTransaction "t1" "a1" "DEBIT" (-5) 0).amount = -5 ∧
    mkTransaction "t1" "a1" "DEBIT" (-5) 0 =
      { transaction_id := "t1", account_id := "a1", transaction_type := "DEBIT",
        amount := -5, transaction_timestamp := 0 } :=
  ⟨rfl, rfl⟩

/-- C5 amended: `Transaction` construction performs no validation - any
amount, negative included, is stored exactly as given; the negative-amount
validation error exists only in `Account.debit`/`Account.credit`, which
reject the amount before any transaction is constructed. -/
theorem transaction_construction_unvalidated (tid aid ty : String) (amount ts : Int)
    (acct : Account) (h : amount < 0) :
    (mkTransaction tid aid ty amount ts).amount = amount ∧
    acct.debit amount tid ts = .error "Cash flows must be positive" ∧
    acct.credit amount tid ts = .error "Cash flows must be positive" := by
  refine ⟨rfl, ?_, ?_⟩
  · rw [Account.debit_eq, if_pos h]
  · rw [Account.credit_eq, if_pos h]

/-- Witness for the amended C5: amount -3 is stored as given, while a debit of
-3 is rejected. -/
theorem transaction_construction_unvalidated_witness :
    (mkTransaction "t" "a" "DEBIT" (-3) 0).amount = -3 ∧
    (Account.mk "a" "i" "Checking" 5 0 0).debit (-3) "t" 0 =
      .error "Cash flows must be positive" :=
  ⟨(transaction_construction_unvalidated "t" "a" "DEBIT" (-3) 0
      (Account.mk "a" "i" "Checking" 5 0 0) (by decide)).1,
   (transaction_construction_unvalidated "t" "a" "DEBIT" (-3) 0
      (Account.mk "a" "i" "Checking" 5 0 0) (by decide)).2.1⟩

/-- C6 counterexample: for an individual whose account list has a Checking
and a Credit Card account but no Savings account, `_get_context` does not
fail: it returns a usable context (the user entry and the checking lookup
both work), with the savings key simply absent. -/
theorem get_context_missing_savings_constructs :
    (get_context ⟨"i", "u", "p", "f", "l", 20, "ad"⟩
      [⟨"a1", "i", "Checking", 10, 0, 0⟩, ⟨"a3", "i", "Credit Card", 0, 1, 25/1000⟩]).user =
        ⟨"i", "u", "p", "f", "l", 20, "ad"⟩ ∧
    (get_context ⟨"i", "u", "p", "f", "l", 20, "ad"⟩
      [⟨"a1", "i", "Checking", 10, 0, 0⟩, ⟨"a3", "i", "Credit Card", 0, 1, 25/1000⟩]).accountFor
        "checking" = some ⟨"a1", "i", "Checking", 10, 0, 0⟩ ∧
    (get_context ⟨"i", "u", "p", "f", "l", 20, "ad"⟩
      [⟨"a1", "i", "Checking", 10, 0, 0⟩, ⟨"a3", "i", "Credit Card", 0, 1, 25/1000⟩]).accountFor
        "savings" = none := by
  refine ⟨rfl, ?_, ?_⟩ <;> decide

/-- C6 amended: `_get_context` performs no provisioning check and never
fails.  It always returns the context; a kind's key is absent from the lookup
exactly when the individual has no account of that normalized kind, so a
missing required account surfaces only at a later lookup, not at context
construction. -/
theorem get_context_no_provisioning_check (ind : Individual) (accounts : List Account)
    (k : String) :
    (get_context ind accounts).user = ind ∧
    ((get_context ind accounts).accountFor k = none ↔
      ∀ a ∈ accounts, normalizeKind a.account_type ≠ k) := by
  constructor
  · rfl
  · simp [get_context, List.find?_eq_none, List.mem_reverse]

/-- Witness for the amended C6: a one-account list with no savings account
yields a context whose savings lookup is empty. -/
theorem get_context_no_provisioning_check_witness :
    (get_context ⟨"i2", "u", "p", "f", "l", 30, "ad"⟩
      [⟨"b1", "i2", "Checking", 0, 0, 0⟩]).accountFor "savings" = none :=
  ((get_context_no_provisioning_check ⟨"i2", "u", "p", "f", "l", 30, "ad"⟩
      [⟨"b1", "i2", "Checking", 0, 0, 0⟩] "savings").2).mpr (by decide)

end Banking
